import Mathlib

/-!
Verification development for the provider-side session core of the
Mysterium node repository: the session manager (admission, payment gate,
stale-session eviction, acknowledgement), the state keeper's event folding
and debouncing, and the session-history query layer
(`consumer/session/query.go`).

The session manager and state keeper implementations are exercised only by
their tests in this snapshot of the repository, so their operations are
modelled from the specification (each such definition carries a
`Modelled from the spec:` doc comment). The query layer is translated from
`consumer/session/query.go` directly.
-/

/-- An identity (blockchain address), as in `identity.Identity`: opaque
address string, compared by equality. -/
structure Identity where
  Address : String
deriving DecidableEq, Repr

/-- A market service proposal, as in `market.ServiceProposal`: admission
matches the incoming ProposalID by equality. -/
structure ServiceProposal where
  ID : Int
  ServiceType : String
  ProviderID : String
deriving DecidableEq, Repr

/-- A live provider-side session, as held in the session pool: opaque ID
(globally unique in the process, modelled by a counter), consumer identity,
accountant address and the proposal snapshot. -/
structure Session where
  ID : Nat
  ConsumerID : Identity
  AccountantID : String
  Proposal : ServiceProposal
deriving DecidableEq, Repr

/-- Lifecycle status carried on the `Session` event-bus topic
(`sessionEvent.CreatedStatus` / `AcknowledgedStatus` / `RemovedStatus`). -/
inductive SessionEventStatus where
  | created
  | acknowledged
  | removed
deriving DecidableEq, Repr

/-- An event published on the bus by the session manager: either a session
lifecycle event carrying the full session, or a trace event carrying its
key (topic `trace.AppTopicTraceEvent`). -/
inductive AppEvent where
  | sessionEvent (status : SessionEventStatus) (s : Session)
  | traceEvent (key : String)
deriving DecidableEq, Repr

/-- Stable error identities returned by the session manager, matched by
equality at the boundary, plus the wrapping first-invoice failure. -/
inductive SMError where
  | ErrorInvalidProposal
  | firstInvoiceNotPaid (cause : String)
  | ErrorSessionNotExists
  | ErrorWrongSessionOwner
deriving DecidableEq, Repr

/-- The rendered error string (Go `err.Error()`). The payment failure wraps
its cause as `first invoice was not paid: <cause>`; the sentinels render
their fixed messages (exact sentinel texts are not observed by any test). -/
def SMError.message : SMError → String
  | .ErrorInvalidProposal => "proposal does not exist"
  | .firstInvoiceNotPaid cause => "first invoice was not paid: " ++ cause
  | .ErrorSessionNotExists => "session does not exist"
  | .ErrorWrongSessionOwner => "wrong session owner"

/-- An incoming `pb.SessionRequest`: consumer info (id, accountant id) and
the requested proposal ID. -/
structure SessionRequest where
  consumerID : String
  accountantID : String
  proposalID : Int
deriving DecidableEq, Repr

/-- The observable state threaded through the session manager: the session
pool, the event history published on the bus so far, and the fresh-ID
counter backing session ID generation. -/
structure ManagerState where
  pool : List Session
  history : List AppEvent
  nextID : Nat
deriving DecidableEq, Repr

/-- A freshly constructed manager over an empty pool and empty event
history. -/
def initialManager : ManagerState :=
  { pool := [], history := [], nextID := 0 }

/-- Modelled from the spec: `SessionManager.Start` (the session manager
implementation is absent from this snapshot; only its tests remain).
Steps follow spec section 4.E and the trace discipline observed by the
tests: the tracer opens the spans "Provider whole session create" and
"Provider session start"; the service whose Proposal.ID equals the
request's ProposalID is located (otherwise `ErrorInvalidProposal`); a fresh
session is constructed and added to the pool (publishing `SessionCreated`);
the payment engine's `WaitFirstInvoice` gate runs under the span
"Provider payments" (on failure the session is destroyed, publishing
`SessionRemoved` after the trace flush, and the wrapped error
`first invoice was not paid: <cause>` is returned); the session config is
built under the span "Provider config"; immediately before returning
success every other live session of the same consumer is destroyed
(stale-session eviction, each publishing `SessionRemoved`). Buffered trace
spans are flushed to the bus, in span start order, after the session
events of the admission itself. The injected payment engine is modelled by
`firstInvoiceError`: `none` means `WaitFirstInvoice` succeeds, `some cause`
means it fails with that cause. -/
def startSession (service : ServiceProposal) (firstInvoiceError : Option String)
    (st : ManagerState) (request : SessionRequest) :
    Except SMError Session × ManagerState :=
  let traces0 := ["Provider whole session create", "Provider session start"]
  if request.proposalID = service.ID then
    let sess : Session :=
      { ID := st.nextID, ConsumerID := { Address := request.consumerID },
        AccountantID := request.accountantID, Proposal := service }
    let createdEv := AppEvent.sessionEvent SessionEventStatus.created sess
    let traces1 := traces0 ++ ["Provider payments"]
    match firstInvoiceError with
    | some cause =>
        (Except.error (SMError.firstInvoiceNotPaid cause),
         { pool := st.pool,
           history := st.history ++ [createdEv] ++ traces1.map AppEvent.traceEvent
             ++ [AppEvent.sessionEvent SessionEventStatus.removed sess],
           nextID := st.nextID + 1 })
    | none =>
        let traces2 := traces1 ++ ["Provider config"]
        let stale := st.pool.filter (fun s => decide (s.ConsumerID = sess.ConsumerID))
        let keep := st.pool.filter (fun s => decide (s.ConsumerID ≠ sess.ConsumerID))
        (Except.ok sess,
         { pool := keep ++ [sess],
           history := st.history ++ [createdEv] ++ traces2.map AppEvent.traceEvent
             ++ stale.map (AppEvent.sessionEvent SessionEventStatus.removed),
           nextID := st.nextID + 1 })
  else
    (Except.error SMError.ErrorInvalidProposal,
     { pool := st.pool,
       history := st.history ++ traces0.map AppEvent.traceEvent,
       nextID := st.nextID })

/-- Modelled from the spec: `SessionManager.Acknowledge(consumerID,
sessionID)` (implementation absent from this snapshot). If the session is
absent from the pool the result is `ErrorSessionNotExists`; if its
ConsumerID differs from the caller the result is `ErrorWrongSessionOwner`;
otherwise a `Session` event with Acknowledged status is published. -/
def acknowledge (st : ManagerState) (consumer : Identity) (sid : Nat) :
    Option SMError × ManagerState :=
  match st.pool.find? (fun s => decide (s.ID = sid)) with
  | none => (some SMError.ErrorSessionNotExists, st)
  | some sess =>
      if sess.ConsumerID = consumer then
        (none,
         { st with history := st.history
             ++ [AppEvent.sessionEvent SessionEventStatus.acknowledged sess] })
      else
        (some SMError.ErrorWrongSessionOwner, st)

/-- A session history record, as in `consumer/session`'s `History` type.
Modelled from the spec: the `History` definition itself is absent from this
snapshot; its fields are those read by `consumer/session/query.go` and the
state keeper tests (SessionID, Direction, ConsumerID, AccountantID,
ProviderCountry, ServiceType, Started, Status, Tokens, DataSent,
DataReceived). Timestamps are nanoseconds since the zero time. -/
structure History where
  SessionID : String
  Direction : String
  ConsumerID : Identity
  AccountantID : String
  ProviderCountry : String
  ServiceType : String
  Started : Nat
  Status : String
  Tokens : Nat
  DataSent : Nat
  DataReceived : Nat
deriving DecidableEq, Repr

/-- The `session.DirectionProvided` constant: direction of a
provider-side session history record. -/
def DirectionProvided : String := "Provided"

/-- The `session.StatusNew` constant: status of a freshly appended
session history record. -/
def StatusNew : String := "New"

/-- The session context carried on the `Session` event-bus topic
(`sessionEvent.SessionContext`): identifiers, start time, and the provider
country taken from the proposal's service definition location. -/
structure SessionContext where
  ID : String
  StartedAt : Nat
  ConsumerID : Identity
  AccountantID : String
  ProposalCountry : String
deriving DecidableEq, Repr

/-- A `Session`-topic event as consumed by the state keeper
(`sessionEvent.AppEventSession`). -/
structure AppEventSession where
  status : SessionEventStatus
  session : SessionContext
deriving DecidableEq, Repr

/-- A `DataTransferred`-topic event
(`sessionEvent.AppEventDataTransferred`): byte counters from the
consumer's perspective. -/
structure AppEventDataTransferred where
  ID : String
  Up : Nat
  Down : Nat
deriving DecidableEq, Repr

/-- The slice of the keeper's snapshot the session-folding claims observe:
the live session history records. -/
structure KeeperState where
  sessions : List History
deriving DecidableEq, Repr

/-- Modelled from the spec: the keeper's `updateSessionAt` helper — apply
an update to the live session record(s) whose SessionID matches the given
id, leaving every other record in place. -/
def updateSessionAt (sessions : List History) (id : String)
    (f : History → History) : List History :=
  sessions.map (fun s => if s.SessionID = id then f s else s)

/-- Modelled from the spec: the keeper's handler for the `Session` topic
(implementation absent from this snapshot). Session created appends a
`History` record with status `StatusNew`, direction `DirectionProvided`
and ids/country/start time populated from the event's session context;
session removed drops the matching record from the live view; session
acknowledged leaves the live session list unchanged (it updates service
connection statistics, outside this slice of the snapshot). -/
def consumeSessionEvent (st : KeeperState) (e : AppEventSession) : KeeperState :=
  match e.status with
  | SessionEventStatus.created =>
      { sessions := st.sessions ++
          [{ SessionID := e.session.ID, Direction := DirectionProvided,
             ConsumerID := e.session.ConsumerID,
             AccountantID := e.session.AccountantID,
             ProviderCountry := e.session.ProposalCountry,
             ServiceType := "", Started := e.session.StartedAt,
             Status := StatusNew, Tokens := 0, DataSent := 0,
             DataReceived := 0 }] }
  | SessionEventStatus.removed =>
      { sessions := st.sessions.filter (fun h => decide (h.SessionID ≠ e.session.ID)) }
  | SessionEventStatus.acknowledged => st

/-- Modelled from the spec: the keeper's handler for the `DataTransferred`
topic (implementation absent from this snapshot). The event's Up/Down
fields are inverted at the keeper boundary: the matching session's
DataSent becomes the event's Down and DataReceived becomes the event's
Up. -/
def consumeServiceSessionStatisticsEvent (st : KeeperState)
    (e : AppEventDataTransferred) : KeeperState :=
  { sessions := updateSessionAt st.sessions e.ID
      (fun s => { s with DataSent := e.Down, DataReceived := e.Up }) }

/-- Modelled from the spec: the trailing-edge debouncer (`debounce` in
`core/state`, implementation absent from this snapshot). Given the
interval `d` and the (time-ordered) call instants of one debounced sink,
`debounceFires` returns the instants at which the underlying function
fires: each call arms the timer for `call + d`; a further call strictly
before the timer expires re-arms it, otherwise the timer fires. -/
def debounceFires (d : Nat) : List Nat → List Nat
  | [] => []
  | [t] => [t + d]
  | t :: t' :: ts =>
      if t' < t + d then debounceFires d (t' :: ts)
      else (t + d) :: debounceFires d (t' :: ts)

/-- A timed event reaching the keeper's debounced sinks: either a NAT
event (routed to the debounced NAT-status refresh) or a service status
event (routed to the debounced service-list refresh). -/
inductive KeeperTimedEvent where
  | natEvent (time : Nat)
  | serviceEvent (time : Nat)
deriving DecidableEq, Repr

/-- Modelled from the spec: `consumeNATEvent` routing — the call instants
the NAT-status debounced sink receives from a keeper event stream. -/
def natCalls : List KeeperTimedEvent → List Nat
  | [] => []
  | KeeperTimedEvent.natEvent t :: es => t :: natCalls es
  | KeeperTimedEvent.serviceEvent _ :: es => natCalls es

/-- Modelled from the spec: `consumeServiceStateEvent` routing — the call
instants the service-list debounced sink receives from a keeper event
stream. -/
def serviceCalls : List KeeperTimedEvent → List Nat
  | [] => []
  | KeeperTimedEvent.natEvent _ :: es => serviceCalls es
  | KeeperTimedEvent.serviceEvent t :: es => t :: serviceCalls es

/-- Number of calls the NAT status provider receives when the keeper,
configured with debounce interval `d`, processes the given event stream:
one call per firing of the NAT-status debounced sink. -/
def natProviderInvocations (d : Nat) (es : List KeeperTimedEvent) : Nat :=
  (debounceFires d (natCalls es)).length

/-- Aggregated session statistics (the source's `session.Stats`; named
`SessionStats` here to avoid clashing with the `Stats` field of `Query`).
Modelled from the spec: the `Stats` definition is absent from this
snapshot; the query layer only needs a record of counters with a zero
value. -/
structure SessionStats where
  count : Nat
  duration : Nat
  tokens : Nat
  dataSent : Nat
  dataReceived : Nat
deriving DecidableEq, Repr

/-- The `NewStats()` constructor: all counters zero. -/
def NewStats : SessionStats :=
  { count := 0, duration := 0, tokens := 0, dataSent := 0, dataReceived := 0 }

/-- A storm query matcher, mirroring the `q.Matcher` values built by
`Query.run`: `q.Gte`/`q.Lte` on the Started field and `q.Eq` on the
Direction, ServiceType and Status fields. -/
inductive Matcher where
  | gteStarted (t : Nat)
  | lteStarted (t : Nat)
  | eqDirection (s : String)
  | eqServiceType (s : String)
  | eqStatus (s : String)
deriving DecidableEq, Repr

/-- An error reported by the storm storage layer: the `storm.ErrNotFound`
sentinel, or any other error carrying its message. -/
inductive StormError where
  | notFound
  | other (msg : String)
deriving DecidableEq, Repr

/-- The storm node (`storm.Node`) as the query layer observes it: `find`
abstracts `node.Select(where, fetch).OrderBy("Started").Reverse().Find`,
returning either the matched session records (ordered by the store) or a
storage error. -/
structure StormNode where
  find : List Matcher → Except StormError (List History)

/-- The fetch operations appended by `FetchStats` / `FetchStatsByDay`
(in the source these are record-matcher closures run by the store during
iteration; only their registration order is observable here). -/
inductive FetchOp where
  | stats
  | statsByDay
deriving DecidableEq, Repr

/-- The `Query` struct of `consumer/session/query.go`: result slots, the
optional filters, and the registered fetch operations. `StatsByDay` is the
map from day-truncated timestamps to stats, represented as an association
list. -/
structure Query where
  Sessions : List History
  Stats : SessionStats
  StatsByDay : List (Nat × SessionStats)
  filterFrom : Option Nat
  filterTo : Option Nat
  filterDirection : Option String
  filterServiceType : Option String
  filterStatus : Option String
  fetch : List FetchOp
deriving Repr

/-- `NewQuery` from `consumer/session/query.go`: empty results, no
filters, no fetch operations. -/
def NewQuery : Query :=
  { Sessions := [], Stats := NewStats, StatsByDay := [],
    filterFrom := none, filterTo := none, filterDirection := none,
    filterServiceType := none, filterStatus := none, fetch := [] }

/-- `Query.FilterFrom` from `consumer/session/query.go`. -/
def Query.FilterFrom (qr : Query) (from_ : Nat) : Query :=
  { qr with filterFrom := some from_ }

/-- `Query.FilterTo` from `consumer/session/query.go`. -/
def Query.FilterTo (qr : Query) (to_ : Nat) : Query :=
  { qr with filterTo := some to_ }

/-- The `stepDay` constant of `consumer/session/query.go`:
`24 * time.Hour` in nanoseconds. -/
def stepDay : Nat := 86400000000000

/-- Go's `t.Truncate(stepDay)`: round down to the nearest multiple of a
day since the zero time. -/
def truncDay (t : Nat) : Nat := t - t % stepDay

/-- The prefill loop of `Query.FetchStatsByDay`:
`for i := from.Truncate(stepDay); !i.After(to); i = i.Add(stepDay)`. -/
def fillDays (i to_ : Nat) : List Nat :=
  if h : i ≤ to_ then i :: fillDays (i + stepDay) to_ else []
termination_by to_ + 1 - i
decreasing_by simp only [stepDay]; omega

/-- `Query.FetchStatsByDay` from `consumer/session/query.go`: reset
`StatsByDay` and, when both `filterFrom` and `filterTo` are set, fill the
period with zero stats, one entry per day step from the day-truncated
lower bound while the stamp does not exceed the upper bound; then register
the per-record aggregation matcher. -/
def Query.FetchStatsByDay (qr : Query) : Query :=
  let prefilled : List (Nat × SessionStats) :=
    match qr.filterFrom, qr.filterTo with
    | some f, some t => (fillDays (truncDay f) t).map (fun i => (i, NewStats))
    | _, _ => []
  { qr with StatsByDay := prefilled, fetch := qr.fetch ++ [FetchOp.statsByDay] }

/-- The `where` matcher list built at the top of `Query.run`: one matcher
per filter that is set, in source order. -/
def Query.whereMatchers (qr : Query) : List Matcher :=
  (qr.filterFrom.map Matcher.gteStarted).toList
    ++ (qr.filterTo.map Matcher.lteStarted).toList
    ++ (qr.filterDirection.map Matcher.eqDirection).toList
    ++ (qr.filterServiceType.map Matcher.eqServiceType).toList
    ++ (qr.filterStatus.map Matcher.eqStatus).toList

/-- `Query.run` from `consumer/session/query.go`: build the `where`
matchers, run `Find` on the store; a `storm.ErrNotFound` result is turned
into an empty `Sessions` slice and a nil error, any other error is
returned unchanged, and a successful result lands in `Sessions`. -/
def Query.run (qr : Query) (node : StormNode) : Query × Option StormError :=
  match node.find qr.whereMatchers with
  | Except.ok found => ({ qr with Sessions := found }, none)
  | Except.error StormError.notFound => ({ qr with Sessions := [] }, none)
  | Except.error e => (qr, some e)

/-- The proposal published by the running service of the session manager
tests: proposal.ID = 68, service type "mockservice". -/
def mockProposal : ServiceProposal :=
  { ID := 68, ServiceType := "mockservice", ProviderID := "" }

/-- The admission request of the session manager tests: consumer
"deadbeef", accountant "0x1", proposal 68. -/
def mockRequest : SessionRequest :=
  { consumerID := "deadbeef", accountantID := "0x1", proposalID := 68 }

/-- The session the first admission of `mockRequest` produces. -/
def mockSession : Session :=
  { ID := 0, ConsumerID := { Address := "deadbeef" }, AccountantID := "0x1",
    Proposal := mockProposal }

/-- A live session owned by consumer "deadbeef" with session ID 1, for
exercising `acknowledge`. -/
def ackSession : Session :=
  { ID := 1, ConsumerID := { Address := "deadbeef" }, AccountantID := "0x1",
    Proposal := mockProposal }

/-- A manager state holding `ackSession`, for exercising `acknowledge`. -/
def ackState : ManagerState :=
  { pool := [ackSession], history := [], nextID := 2 }

/-- A history record for session id "1" with all counters zero. -/
def histRecOne : History :=
  { SessionID := "1", Direction := "", ConsumerID := { Address := "" },
    AccountantID := "", ProviderCountry := "", ServiceType := "",
    Started := 0, Status := "", Tokens := 0, DataSent := 0, DataReceived := 0 }

/-- A history record for session id "2" with all counters zero. -/
def histRecTwo : History :=
  { histRecOne with SessionID := "2" }

/-- A keeper snapshot holding the two live sessions "1" and "2". -/
def keeperTwo : KeeperState :=
  { sessions := [histRecOne, histRecTwo] }

/-- A storm node whose lookup always reports `storm.ErrNotFound`. -/
def nodeNotFound : StormNode :=
  { find := fun _ => Except.error StormError.notFound }

/-- A storm node whose lookup always fails with a non-sentinel error. -/
def nodeBroken : StormNode :=
  { find := fun _ => Except.error (StormError.other "boom") }

/-- A query filtered to the range [5ns, 5ns], both bounds set. -/
def queryBothBounds : Query :=
  (NewQuery.FilterFrom 5).FilterTo 5

/-- Characterisation of the `FetchStatsByDay` prefill loop: the stamps it
produces are exactly the day steps from the start stamp that do not exceed
the upper bound. -/
theorem mem_fillDays (x i to_ : Nat) :
    x ∈ fillDays i to_ ↔ ∃ k, x = i + k * stepDay ∧ x ≤ to_ := by
  induction i, to_ using fillDays.induct with
  | case1 i to_ h ih =>
      rw [fillDays, dif_pos h, List.mem_cons, ih]
      constructor
      · rintro (rfl | ⟨k, rfl, hk⟩)
        · exact ⟨0, by omega, h⟩
        · exact ⟨k + 1, by ring, hk⟩
      · rintro ⟨k, rfl, hk⟩
        cases k with
        | zero => left; omega
        | succ k => exact Or.inr ⟨k, by ring, hk⟩
  | case2 i to_ h =>
      rw [fillDays, dif_neg h]
      simp only [List.not_mem_nil, false_iff, not_exists, not_and]
      rintro k rfl
      intro hk
      have hs : (0:Nat) < stepDay := by simp [stepDay]
      omega

/-- A burst of calls that all happen strictly within one interval of the
first call makes the debouncer fire exactly once, one interval after the
last call. -/
theorem debounceFires_burst (d : Nat) (t : Nat) (ts : List Nat)
    (hchain : List.Chain' (· ≤ ·) (t :: ts))
    (hburst : ∀ x ∈ t :: ts, x < t + d) :
    debounceFires d (t :: ts) = [(t :: ts).getLast (List.cons_ne_nil t ts) + d] := by
  induction ts generalizing t with
  | nil => rfl
  | cons t' ts ih =>
      have ht' : t' < t + d := hburst t' (by simp)
      have htt' : t ≤ t' := (List.chain'_cons.mp hchain).1
      have hchain' : List.Chain' (· ≤ ·) (t' :: ts) := (List.chain'_cons.mp hchain).2
      have hburst' : ∀ x ∈ t' :: ts, x < t' + d := by
        intro x hx
        have := hburst x (List.mem_cons_of_mem t hx)
        omega
      rw [debounceFires, if_pos ht', ih t' hchain' hburst']
      rw [List.getLast_cons (List.cons_ne_nil t' ts)]

/-- The NAT-status sink of the keeper receives exactly the instants of the
NAT events of the stream. -/
theorem natCalls_map_natEvent (l : List Nat) :
    natCalls (l.map KeeperTimedEvent.natEvent) = l := by
  induction l with
  | nil => rfl
  | cons t l ih => simpa [natCalls] using ih

/-- NAT events delivered to the keeper do not change what the service-list
sink receives. -/
theorem serviceCalls_insert_natEvent (es₁ es₂ : List KeeperTimedEvent) (tn : Nat) :
    serviceCalls (es₁ ++ KeeperTimedEvent.natEvent tn :: es₂)
      = serviceCalls (es₁ ++ es₂) := by
  induction es₁ with
  | nil => rfl
  | cons e es ih => cases e <;> simpa [serviceCalls] using ih

/-- C1: for every admission request against a running service whose
Proposal.ID equals the request's ProposalID and whose payment engine
reports no error, Start returns the new session without error, the pool
then holds exactly that one session (whose ConsumerID is the request's
consumer), and the published event history is exactly one SessionCreated
event carrying the session's consumer, accountant and proposal, followed
by the four trace events "Provider whole session create",
"Provider session start", "Provider payments", "Provider config" in that
order. -/
theorem start_happyAdmission (service : ServiceProposal)
    (consumer accountant : String) (pid : Int) (hpid : pid = service.ID) :
    startSession service none initialManager
        { consumerID := consumer, accountantID := accountant, proposalID := pid }
      = (Except.ok { ID := 0, ConsumerID := { Address := consumer },
                     AccountantID := accountant, Proposal := service },
         { pool := [{ ID := 0, ConsumerID := { Address := consumer },
                      AccountantID := accountant, Proposal := service }],
           history :=
             [AppEvent.sessionEvent SessionEventStatus.created
                { ID := 0, ConsumerID := { Address := consumer },
                  AccountantID := accountant, Proposal := service },
              AppEvent.traceEvent "Provider whole session create",
              AppEvent.traceEvent "Provider session start",
              AppEvent.traceEvent "Provider payments",
              AppEvent.traceEvent "Provider config"],
           nextID := 1 }) := by
  subst hpid
  simp [startSession, initialManager]

/-- Witness for C1 at the test's inputs: proposal 68, consumer "deadbeef",
accountant "0x1". -/
theorem start_happyAdmission_witness :
    startSession mockProposal none initialManager mockRequest
      = (Except.ok mockSession,
         { pool := [mockSession],
           history :=
             [AppEvent.sessionEvent SessionEventStatus.created mockSession,
              AppEvent.traceEvent "Provider whole session create",
              AppEvent.traceEvent "Provider session start",
              AppEvent.traceEvent "Provider payments",
              AppEvent.traceEvent "Provider config"],
           nextID := 1 }) :=
  start_happyAdmission mockProposal "deadbeef" "0x1" 68 rfl

/-- C2: for every admission request whose payment engine's
WaitFirstInvoice fails with cause `cause`, Start returns an error whose
rendered string is "first invoice was not paid: " followed by the cause,
the session does not remain in the pool, and the published event history
is exactly SessionCreated, the three trace events ending at
"Provider payments", then SessionRemoved for the same session (same
consumer). -/
theorem start_firstInvoiceFailure (service : ServiceProposal)
    (consumer accountant : String) (pid : Int) (cause : String)
    (hpid : pid = service.ID) :
    startSession service (some cause) initialManager
        { consumerID := consumer, accountantID := accountant, proposalID := pid }
      = (Except.error (SMError.firstInvoiceNotPaid cause),
         { pool := [],
           history :=
             [AppEvent.sessionEvent SessionEventStatus.created
                { ID := 0, ConsumerID := { Address := consumer },
                  AccountantID := accountant, Proposal := service },
              AppEvent.traceEvent "Provider whole session create",
              AppEvent.traceEvent "Provider session start",
              AppEvent.traceEvent "Provider payments",
              AppEvent.sessionEvent SessionEventStatus.removed
                { ID := 0, ConsumerID := { Address := consumer },
                  AccountantID := accountant, Proposal := service }],
           nextID := 1 })
      ∧ (SMError.firstInvoiceNotPaid cause).message
          = "first invoice was not paid: " ++ cause := by
  subst hpid
  constructor
  · simp [startSession, initialManager]
  · rfl

/-- Witness for C2 at the test's inputs: the balance tracker fails with
"sorry, your money ended". -/
theorem start_firstInvoiceFailure_witness :
    startSession mockProposal (some "sorry, your money ended") initialManager
        mockRequest
      = (Except.error (SMError.firstInvoiceNotPaid "sorry, your money ended"),
         { pool := [],
           history :=
             [AppEvent.sessionEvent SessionEventStatus.created mockSession,
              AppEvent.traceEvent "Provider whole session create",
              AppEvent.traceEvent "Provider session start",
              AppEvent.traceEvent "Provider payments",
              AppEvent.sessionEvent SessionEventStatus.removed mockSession],
           nextID := 1 })
      ∧ (SMError.firstInvoiceNotPaid "sorry, your money ended").message
          = "first invoice was not paid: sorry, your money ended" :=
  start_firstInvoiceFailure mockProposal "deadbeef" "0x1" 68
    "sorry, your money ended" rfl

/-- C4: for every admission request whose ProposalID matches no running
service's Proposal.ID, Start returns exactly the sentinel
ErrorInvalidProposal, the pool stays empty, and the published event
history is exactly the two trace events ending at
"Provider session start" — no SessionCreated or SessionRemoved. Holds for
any payment engine behaviour. -/
theorem start_unknownProposal (service : ServiceProposal)
    (consumer accountant : String) (pid : Int) (fie : Option String)
    (hpid : pid ≠ service.ID) :
    startSession service fie initialManager
        { consumerID := consumer, accountantID := accountant, proposalID := pid }
      = (Except.error SMError.ErrorInvalidProposal,
         { pool := [],
           history := [AppEvent.traceEvent "Provider whole session create",
                       AppEvent.traceEvent "Provider session start"],
           nextID := 0 }) := by
  simp [startSession, initialManager, hpid]

/-- Witness for C4 at the test's inputs: request proposal 69 against a
service publishing proposal 68. -/
theorem start_unknownProposal_witness :
    startSession mockProposal none initialManager
        { consumerID := "deadbeef", accountantID := "0x1", proposalID := 69 }
      = (Except.error SMError.ErrorInvalidProposal,
         { pool := [],
           history := [AppEvent.traceEvent "Provider whole session create",
                       AppEvent.traceEvent "Provider session start"],
           nextID := 0 }) :=
  start_unknownProposal mockProposal "deadbeef" "0x1" 69 none (by decide)

/-- C3: whenever Start succeeds, every other live session with the new
session's ConsumerID is destroyed before success is returned: a
SessionRemoved event is published for each and none of them remains in the
pool, so the pool holds exactly one session for that consumer; in
particular, after two successful Starts of the same request from a fresh
manager, the first session's ID (0) is no longer found in the pool. The
pool-freshness hypothesis (every pooled ID is below the ID counter) is the
session pool's ID-uniqueness invariant, which `startSession` preserves. -/
theorem start_staleEviction (service : ServiceProposal) (st : ManagerState)
    (req : SessionRequest) (hpid : req.proposalID = service.ID)
    (hfresh : ∀ s ∈ st.pool, s.ID < st.nextID) :
    ((startSession service none st req).1
        = Except.ok { ID := st.nextID, ConsumerID := { Address := req.consumerID },
                      AccountantID := req.accountantID, Proposal := service })
    ∧ ((startSession service none st req).2.pool.filter
          (fun s => decide (s.ConsumerID = { Address := req.consumerID }))
        = [{ ID := st.nextID, ConsumerID := { Address := req.consumerID },
             AccountantID := req.accountantID, Proposal := service }])
    ∧ (∀ s ∈ st.pool, s.ConsumerID = { Address := req.consumerID } →
        AppEvent.sessionEvent SessionEventStatus.removed s
            ∈ (startSession service none st req).2.history
        ∧ s ∉ (startSession service none st req).2.pool)
    ∧ ((startSession service none
          ((startSession service none initialManager req).2) req).2.pool.find?
        (fun s => decide (s.ID = 0)) = none) := by
  refine ⟨?_, ?_, ?_, ?_⟩
  · simp [startSession, hpid]
  · simp [startSession, hpid, List.filter_filter]
  · intro s hs hcons
    constructor
    · simp only [startSession, hpid, if_pos]
      simp only [List.mem_append, List.mem_map]
      exact Or.inr ⟨s, List.mem_filter.mpr ⟨hs, by simp [hcons]⟩, rfl⟩
    · simp only [startSession, hpid, if_pos]
      simp only [List.mem_append, List.mem_filter, List.mem_singleton]
      rintro (⟨-, hne⟩ | rfl)
      · exact absurd hcons (by simpa using hne)
      · exact absurd (hfresh _ hs) (by simp)
  · simp [startSession, initialManager, hpid]

/-- Witness for C3: after two successful Starts of the test request from a
fresh manager, session ID 0 is gone from the pool. -/
theorem start_staleEviction_witness :
    (startSession mockProposal none
        ((startSession mockProposal none initialManager mockRequest).2)
        mockRequest).2.pool.find? (fun s => decide (s.ID = 0)) = none :=
  (start_staleEviction mockProposal initialManager mockRequest rfl
    (by simp [initialManager])).2.2.2

/-- C5: acknowledging an unknown session yields exactly
ErrorSessionNotExists; acknowledging a session owned by a different
consumer yields exactly ErrorWrongSessionOwner (the state is untouched in
both cases); acknowledging one's own session succeeds and publishes a
Session event with Acknowledged status. -/
theorem acknowledge_authorization (st : ManagerState) (c : Identity) (sid : Nat) :
    (st.pool.find? (fun s => decide (s.ID = sid)) = none →
        acknowledge st c sid = (some SMError.ErrorSessionNotExists, st))
    ∧ (∀ sess, st.pool.find? (fun s => decide (s.ID = sid)) = some sess →
        sess.ConsumerID ≠ c →
        acknowledge st c sid = (some SMError.ErrorWrongSessionOwner, st))
    ∧ (∀ sess, st.pool.find? (fun s => decide (s.ID = sid)) = some sess →
        sess.ConsumerID = c →
        (acknowledge st c sid).1 = none
        ∧ (acknowledge st c sid).2.history = st.history
            ++ [AppEvent.sessionEvent SessionEventStatus.acknowledged sess]) := by
  refine ⟨?_, ?_, ?_⟩
  · intro h
    unfold acknowledge
    rw [h]
  · intro sess h hne
    unfold acknowledge
    rw [h]
    simp [hne]
  · intro sess h heq
    unfold acknowledge
    rw [h]
    simp [heq]

/-- Witness for C5: the three authorization outcomes on a pool holding one
session (ID 1, owner "deadbeef"). -/
theorem acknowledge_authorization_witness :
    acknowledge ackState { Address := "deadbeef" } 2
        = (some SMError.ErrorSessionNotExists, ackState)
    ∧ acknowledge ackState { Address := "some other id" } 1
        = (some SMError.ErrorWrongSessionOwner, ackState)
    ∧ (acknowledge ackState { Address := "deadbeef" } 1).1 = none :=
  ⟨(acknowledge_authorization ackState { Address := "deadbeef" } 2).1 (by decide),
   (acknowledge_authorization ackState { Address := "some other id" } 1).2.1
     ackSession (by decide) (by decide),
   ((acknowledge_authorization ackState { Address := "deadbeef" } 1).2.2
     ackSession (by decide) rfl).1⟩

/-- C6: processing a DataTransferred event for a live session sets that
session's DataSent to the event's Down and DataReceived to the event's Up
(the inversion at the keeper boundary), leaving every other field of the
record — and every record with a different SessionID — unchanged. -/
theorem dataTransferred_invertsUpDown (st : KeeperState)
    (e : AppEventDataTransferred) :
    (∀ (i : Nat) (s : History), st.sessions[i]? = some s → s.SessionID = e.ID →
        (consumeServiceSessionStatisticsEvent st e).sessions[i]?
          = some { s with DataSent := e.Down, DataReceived := e.Up })
    ∧ (∀ (j : Nat) (s : History), st.sessions[j]? = some s → s.SessionID ≠ e.ID →
        (consumeServiceSessionStatisticsEvent st e).sessions[j]? = some s) := by
  constructor
  · intro i s hget hid
    simp [consumeServiceSessionStatisticsEvent, updateSessionAt,
      List.getElem?_map, hget, hid]
  · intro j s hget hid
    simp [consumeServiceSessionStatisticsEvent, updateSessionAt,
      List.getElem?_map, hget, hid]

/-- Witness for C6: event {id "1", Up 1, Down 2} on a snapshot with live
sessions "1" and "2" gives session "1" DataSent 2 and DataReceived 1 and
leaves session "2" untouched. -/
theorem dataTransferred_invertsUpDown_witness :
    (consumeServiceSessionStatisticsEvent keeperTwo
        { ID := "1", Up := 1, Down := 2 }).sessions[0]?
      = some { histRecOne with DataSent := 2, DataReceived := 1 }
    ∧ (consumeServiceSessionStatisticsEvent keeperTwo
        { ID := "1", Up := 1, Down := 2 }).sessions[1]? = some histRecTwo :=
  ⟨(dataTransferred_invertsUpDown keeperTwo { ID := "1", Up := 1, Down := 2 }).1
      0 histRecOne rfl rfl,
   (dataTransferred_invertsUpDown keeperTwo { ID := "1", Up := 1, Down := 2 }).2
      1 histRecTwo rfl (by decide)⟩

/-- C8: processing SessionCreated appends a History record with status
StatusNew, direction DirectionProvided, and SessionID, ConsumerID,
AccountantID, provider country and start time taken from the event's
session context; subsequently processing SessionRemoved for the same id
leaves 0 live sessions with that id in the snapshot. -/
theorem keeper_sessionFolding (st : KeeperState) (c : SessionContext) :
    (consumeSessionEvent st
        { status := SessionEventStatus.created, session := c }).sessions
      = st.sessions ++
        [{ SessionID := c.ID, Direction := DirectionProvided,
           ConsumerID := c.ConsumerID, AccountantID := c.AccountantID,
           ProviderCountry := c.ProposalCountry, ServiceType := "",
           Started := c.StartedAt, Status := StatusNew, Tokens := 0,
           DataSent := 0, DataReceived := 0 }]
    ∧ ((consumeSessionEvent
          (consumeSessionEvent st
            { status := SessionEventStatus.created, session := c })
          { status := SessionEventStatus.removed, session := c }).sessions.filter
        (fun h => decide (h.SessionID = c.ID)) = []) := by
  constructor
  · rfl
  · simp [consumeSessionEvent, List.filter_filter]

/-- C7: a burst of N ≥ 1 calls to a debounced sink, all strictly within
one interval of the first call, produces exactly one underlying
invocation, one interval after the last call; hence N NAT events in such a
burst cause exactly one call to the NAT status provider; and a NAT event
inserted anywhere in a keeper event stream does not change what the
independent service-list sink receives. -/
theorem debounce_burstSingleFire (d : Nat) (hd : 0 < d) (t : Nat)
    (ts : List Nat) (hchain : List.Chain' (· ≤ ·) (t :: ts))
    (hburst : ∀ x ∈ t :: ts, x < t + d)
    (es₁ es₂ : List KeeperTimedEvent) (tn : Nat) :
    debounceFires d (t :: ts)
        = [(t :: ts).getLast (List.cons_ne_nil t ts) + d]
    ∧ natProviderInvocations d ((t :: ts).map KeeperTimedEvent.natEvent) = 1
    ∧ serviceCalls (es₁ ++ KeeperTimedEvent.natEvent tn :: es₂)
        = serviceCalls (es₁ ++ es₂) := by
  refine ⟨debounceFires_burst d t ts hchain hburst, ?_,
    serviceCalls_insert_natEvent es₁ es₂ tn⟩
  rw [natProviderInvocations, natCalls_map_natEvent,
    debounceFires_burst d t ts hchain hburst]
  rfl

/-- Witness for C7: interval 10, burst at instants 0, 1, 2; stream with
service events at 5 and 7 and a NAT event in between. -/
theorem debounce_burstSingleFire_witness :
    debounceFires 10 [0, 1, 2] = [12]
    ∧ natProviderInvocations 10 ([0, 1, 2].map KeeperTimedEvent.natEvent) = 1
    ∧ serviceCalls [KeeperTimedEvent.serviceEvent 5, KeeperTimedEvent.natEvent 3,
          KeeperTimedEvent.serviceEvent 7]
        = serviceCalls [KeeperTimedEvent.serviceEvent 5,
          KeeperTimedEvent.serviceEvent 7] :=
  debounce_burstSingleFire 10 (by decide) 0 [1, 2]
    (by norm_num [List.chain'_cons]) (by decide)
    [KeeperTimedEvent.serviceEvent 5] [KeeperTimedEvent.serviceEvent 7] 3



/-- C9: when the storage lookup reports `storm.ErrNotFound`, `Query.run`
returns no error and leaves `Sessions` equal to the empty list instead of
propagating the sentinel; any other storage error is returned unchanged
with the query untouched. -/
theorem query_run_errorHandling (qr : Query) (node : StormNode) :
    (node.find qr.whereMatchers = Except.error StormError.notFound →
        qr.run node = ({ qr with Sessions := [] }, none))
    ∧ (∀ msg, node.find qr.whereMatchers = Except.error (StormError.other msg) →
        qr.run node = (qr, some (StormError.other msg))) := by
  constructor
  · intro h
    unfold Query.run
    rw [h]
  · intro msg h
    unfold Query.run
    rw [h]

/-- Witness for C9: a store that reports not-found yields an empty result
and nil error; a store failing with "boom" propagates that error. -/
theorem query_run_errorHandling_witness :
    NewQuery.run nodeNotFound = ({ NewQuery with Sessions := [] }, none)
    ∧ NewQuery.run nodeBroken = (NewQuery, some (StormError.other "boom")) :=
  ⟨(query_run_errorHandling NewQuery nodeNotFound).1 rfl,
   (query_run_errorHandling NewQuery nodeBroken).2 "boom" rfl⟩

/-- C10: when both FilterFrom and FilterTo are set, FetchStatsByDay
pre-fills StatsByDay with one zero-stats entry per day step, starting at
the day-truncated lower bound and including every day stamp that does not
exceed the upper bound — and nothing else; when either bound is absent, no
entries are pre-filled. -/
theorem fetchStatsByDay_prefill (qr : Query) :
    (∀ f t, qr.filterFrom = some f → qr.filterTo = some t →
        qr.FetchStatsByDay.StatsByDay
            = (fillDays (truncDay f) t).map (fun i => (i, NewStats))
        ∧ (∀ x : Nat, (x, NewStats) ∈ qr.FetchStatsByDay.StatsByDay
              ↔ ∃ k, x = truncDay f + k * stepDay ∧ x ≤ t)
        ∧ (∀ p ∈ qr.FetchStatsByDay.StatsByDay, p.2 = NewStats))
    ∧ ((qr.filterFrom = none ∨ qr.filterTo = none) →
        qr.FetchStatsByDay.StatsByDay = []) := by
  constructor
  · intro f t hf ht
    refine ⟨?_, ?_, ?_⟩
    · simp [Query.FetchStatsByDay, hf, ht]
    · intro x
      simp [Query.FetchStatsByDay, hf, ht, List.mem_map, mem_fillDays]
    · intro p hp
      simp only [Query.FetchStatsByDay, hf, ht, List.mem_map] at hp
      obtain ⟨a, -, rfl⟩ := hp
      rfl
  · intro h
    rcases h with h | h <;>
      rcases hf : qr.filterFrom with - | f <;>
      rcases ht : qr.filterTo with - | t <;>
      simp_all [Query.FetchStatsByDay]

/-- Witness for C10: bounds [5ns, 5ns] pre-fill exactly the day stamp 0
(5ns truncated to the day); an unbounded query pre-fills nothing. -/
theorem fetchStatsByDay_prefill_witness :
    queryBothBounds.FetchStatsByDay.StatsByDay = [(0, NewStats)]
    ∧ NewQuery.FetchStatsByDay.StatsByDay = [] := by
  have h := (fetchStatsByDay_prefill queryBothBounds).1 5 5 rfl rfl
  refine ⟨h.1.trans ?_, (fetchStatsByDay_prefill NewQuery).2 (Or.inl rfl)⟩
  rw [fillDays, dif_pos (by norm_num [truncDay, stepDay]),
    fillDays, dif_neg (by norm_num [truncDay, stepDay])]
  norm_num [truncDay, stepDay]
